import Mathlib

/-!
Verification development for the NewsAnalysisBSkyPoster repository.

This file contains a shallow embedding, in Lean 4, of the candidate
selection, similarity checking, domain filtering, URL validation,
orchestration, and URL history logic of the repository, together with
theorems settling the spec claims about that logic.

Conventions of the embedding:
* Pure Python functions become Lean functions over `String` / `List` data.
* External effects (the Gemini LLM calls, DNS resolution, article fetching,
  browser-based redirect resolution, social-platform publishing, the
  history file) are passed in explicitly as values or oracle functions, so
  each theorem quantifies over all possible behaviours of the collaborator.
* `random.shuffle` is modelled by quantifying over an arbitrary permutation
  of the input list.
* Machine integers are modelled by `Nat`/`Int` (no overflow is relevant at
  the sizes involved), and the float comparison `overlap / min > 0.5` is
  modelled by the exact integer inequality `2 * overlap > min`.
-/

namespace NewsPoster

/-! ## Configuration constants (src/config/settings.py) -/

/-- settings.CANDIDATE_SELECTION_LIMIT (src/config/settings.py line 90). -/
def CANDIDATE_SELECTION_LIMIT : Nat := 60

/-- settings.SIMILARITY_CHECK_POSTS_LIMIT (line 84). -/
def SIMILARITY_CHECK_POSTS_LIMIT : Nat := 72

/-- settings.MIN_KEYWORD_LENGTH (line 85). -/
def MIN_KEYWORD_LENGTH : Nat := 3

/-- settings.MAX_HISTORY_LINES (line 50). -/
def MAX_HISTORY_LINES : Nat := 100

/-- settings.CLEANUP_THRESHOLD (line 51). -/
def CLEANUP_THRESHOLD : Nat := 10

/-- settings.MAX_ARTICLE_RETRIES (line 52). -/
def MAX_ARTICLE_RETRIES : Nat := 30

/-- helpers.MAX_URL_LENGTH (src/utils/helpers.py line 41). -/
def MAX_URL_LENGTH : Nat := 2048

/-! ## Character-level string helpers

Python string primitives used by the repository, modelled on `List Char`.
-/

/-- Python `str.lower()` restricted to ASCII, on a character list. -/
def lowerChars (l : List Char) : List Char := l.map Char.toLower

/-- Does `l` start with `pre`? (Python `str.startswith`.) -/
def startsWithChars : List Char → List Char → Bool
  | [], _ => true
  | _ :: _, [] => false
  | a :: as, b :: bs => a = b && startsWithChars as bs

/-- Does `l` contain `needle` as a contiguous substring?
(Python `needle in l`.) -/
def hasSubstrChars (needle : List Char) : List Char → Bool
  | [] => startsWithChars needle []
  | c :: cs => startsWithChars needle (c :: cs) || hasSubstrChars needle cs

/-- Does `l` end with `suf`? (Python `str.endswith`.) -/
def endsWithChars (suf l : List Char) : Bool :=
  startsWithChars suf.reverse l.reverse

/-- Python `str.split(sep)` for a one-character separator: splits on every
occurrence, keeping empty pieces (`'a..b'.split('.') == ['a','','b']`). -/
def splitOnChar (sep : Char) : List Char → List (List Char)
  | [] => [[]]
  | c :: cs =>
    let rest := splitOnChar sep cs
    if c = sep then
      [] :: rest
    else
      match rest with
      | [] => [[c]]
      | p :: ps => (c :: p) :: ps

/-- Python `str.strip(chars)`: remove leading and trailing characters that
belong to `cs`. -/
def pyStrip (cs : List Char) (l : List Char) : List Char :=
  ((l.dropWhile (cs.contains ·)).reverse.dropWhile (cs.contains ·)).reverse

/-- Python `str.strip()` with no argument: remove leading and trailing
whitespace. -/
def trimChars (l : List Char) : List Char :=
  ((l.dropWhile Char.isWhitespace).reverse.dropWhile Char.isWhitespace).reverse

/-- Python `str.lower()` on a string (ASCII). -/
def pyLower (s : String) : String := String.mk (lowerChars s.data)

/-- Python `str.strip()` on a string. -/
def pyTrim (s : String) : String := String.mk (trimChars s.data)

/-- Python `str.upper()` on a string (ASCII). -/
def pyUpper (s : String) : String := String.mk (s.data.map Char.toUpper)

/-- The characters before the first occurrence of `sep`
(Python `s.split(sep)[0]`). -/
def beforeChar (sep : Char) (l : List Char) : List Char :=
  l.takeWhile (· ≠ sep)

/-- Join character-list labels with `'.'` (Python `'.'.join(parts)`). -/
def joinDots : List (List Char) → List Char
  | [] => []
  | [p] => p
  | p :: ps => p ++ '.' :: joinDots ps

/-- The last `n` elements of a list (Python `parts[-n:]` for `0 < n`). -/
def lastN (n : Nat) (l : List α) : List α :=
  l.drop (l.length - n)

/-! ## Python `urlparse` (scheme and netloc only)

The repository only consumes `parsed.scheme` and `parsed.netloc`, so only
those components of `urllib.parse.urlparse` are embedded:
* a scheme is recognised when the text before the first `':'` is non-empty,
  starts with a letter, and consists of letters, digits, `'+'`, `'-'`,
  `'.'`; the scheme attribute is lowercased (as `urlparse` does);
* the netloc is present only when the remainder begins with `"//"`, and
  extends to the next `'/'`, `'?'` or `'#'`.
-/

/-- Characters allowed in a URL scheme after the first letter. -/
def isSchemeChar (c : Char) : Bool :=
  c.isAlphanum || c = '+' || c = '-' || c = '.'

/-- Split off a scheme, if any: returns (scheme?, remainder). -/
def splitScheme (l : List Char) : Option (List Char) × List Char :=
  let pre := beforeChar ':' l
  if pre.length < l.length ∧ pre ≠ [] ∧
      (pre.headD ' ').isAlpha ∧ pre.all isSchemeChar then
    (some (lowerChars pre), l.drop (pre.length + 1))
  else
    (none, l)

/-- Python `urlparse(url).scheme` (empty scheme reported as `none`). -/
def urlScheme (l : List Char) : Option (List Char) :=
  (splitScheme l).1

/-- Python `urlparse(url).netloc`. -/
def urlNetloc (l : List Char) : List Char :=
  let rest := (splitScheme l).2
  if startsWithChars ['/', '/'] rest then
    (rest.drop 2).takeWhile (fun c => c ≠ '/' ∧ c ≠ '?' ∧ c ≠ '#')
  else
    []

/-! ## IPv4 literals (Python `ipaddress.ip_address` on colon-free text)

In both `extract_base_domain` and `is_private_ip` the text handed to
`ipaddress.ip_address` is `hostname.strip('[]')` where `hostname` is the
netloc truncated at its first `':'`; such text can never be an IPv6
literal (those require a `':'`), so the literal-address check is exactly
IPv4 parsing: four dot-separated decimal octets, each of one to three
digits, value at most 255, with no leading zero on a multi-digit octet.
-/

/-- Decimal value of a digit list (assumed all digits). -/
def digitsToNat (l : List Char) : Nat :=
  l.foldl (fun acc c => 10 * acc + (c.toNat - '0'.toNat)) 0

/-- Is `p` a valid IPv4 octet in Python `ipaddress` syntax? -/
def isIPv4Octet (p : List Char) : Bool :=
  p ≠ [] && p.length ≤ 3 && p.all Char.isDigit &&
    (p.headD ' ' ≠ '0' || p.length = 1) && digitsToNat p ≤ 255

/-- Parse an IPv4 literal into its four octet values. -/
def parseIPv4 (l : List Char) : Option (Nat × Nat × Nat × Nat) :=
  match splitOnChar '.' l with
  | [a, b, c, d] =>
    if isIPv4Octet a && isIPv4Octet b && isIPv4Octet c && isIPv4Octet d then
      some (digitsToNat a, digitsToNat b, digitsToNat c, digitsToNat d)
    else
      none
  | _ => none

/-! ## extract_base_domain and is_domain_match (src/utils/helpers.py) -/

/-- The enumerated compound TLD set of `extract_base_domain`
(src/utils/helpers.py lines 203-207). -/
def compound_tlds : List String :=
  ["co.uk", "com.au", "co.nz", "co.za", "com.br", "co.jp",
   "co.kr", "co.in", "org.uk", "net.au", "gov.uk", "ac.uk",
   "edu.au", "or.jp", "ne.jp", "go.jp"]

/-- Embedding of `extract_base_domain` (src/utils/helpers.py lines 164-220):
lowercase the netloc, strip the port, return IP literals verbatim, then
take the last two dot-labels, or the last three when the last two form an
enumerated compound TLD. Returns `none` when the URL has no host. -/
def extract_base_domain (url : String) : Option String :=
  let hostname := lowerChars (urlNetloc url.data)
  if hostname = [] then none
  else
    let hostname := beforeChar ':' hostname
    if (parseIPv4 (pyStrip ['[', ']'] hostname)).isSome then
      some (String.mk hostname)
    else
      let parts := splitOnChar '.' hostname
      if parts.length < 2 then some (String.mk hostname)
      else if 3 ≤ parts.length ∧
          String.mk (joinDots (lastN 2 parts)) ∈ compound_tlds then
        some (String.mk (joinDots (lastN 3 parts)))
      else
        some (String.mk (joinDots (lastN 2 parts)))

/-- Embedding of `is_domain_match` (src/utils/helpers.py lines 223-246):
exact membership of the extracted base domain in the normalised list. -/
def is_domain_match (url : String) (domain_list : List String) : Bool :=
  match extract_base_domain url with
  | none => false
  | some base_domain =>
    if base_domain = "" then false
    else (domain_list.map (fun d => pyTrim (pyLower d))).contains base_domain

/-! ## Data model -/

/-- One candidate row of the feed pool, as assembled by `NewsPoster.run`
(src/main.py lines 82-87): dict keys `URL`, `Title`, `News_Feed_ID`,
`Source_Count`. -/
structure Candidate where
  url : String
  title : String
  feedId : Nat
  sourceCount : Int
deriving DecidableEq, Repr

/-- An entry of the list returned by `select_news_articles`
(src/services/ai_service.py lines 236-240): dict keys `URL`, `Title`,
`News_Feed_ID`. -/
structure SelectedArticle where
  url : String
  title : String
  feedId : Nat
deriving DecidableEq, Repr

/-- The `FeedPost` dataclass (src/services/ai_service.py lines 22-28).
The timestamp is opaque to all embedded logic. -/
structure FeedPost where
  text : String
  url : Option String
  title : Option String
  timestamp : Int
deriving DecidableEq, Repr

/-- The `ArticleContent` dataclass (src/services/article_service.py
lines 30-47). -/
structure ArticleContent where
  url : String
  title : String
  text : String
  summary : String
  topImage : String
  newsFeedId : Option Nat
deriving DecidableEq, Repr

/-- The dict returned by `generate_tweet` (src/services/ai_service.py
lines 397-401); the facet structures are opaque to the orchestrator. -/
structure TweetData where
  tweetText : String
  summary : String
deriving DecidableEq, Repr

/-! ## select_news_articles (src/services/ai_service.py lines 151-272)

The two external effects are made explicit:
* `shuffled` is the result of `random.shuffle(candidates.copy())`; theorems
  quantify over an arbitrary permutation of `candidates`;
* `matches` is the outcome of the Gemini call plus the regex extraction
  `re.findall(r'(\d+)\.\s+URL:\s+(.*?)\s+TITLE:\s+(.*?)(?=\n\d+\.|\Z)', ...)`
  applied to the response: `none` models the call raising, and
  `some ms` models a successful call whose response yields the (already
  `.strip()`-ed) URL/title capture pairs `ms` — including pairs repeating
  the same URL, which the regex happily produces when the model repeats
  itself. Quantifying over `ms` covers every possible response text.
-/

/-- The working pool (`candidate_list`, src/services/ai_service.py
line 168): the shuffled candidate list truncated at
`CANDIDATE_SELECTION_LIMIT`. There is no breaking-news partition, sort or
cap in the source. -/
def workingPool (shuffled : List Candidate) : List Candidate :=
  shuffled.take CANDIDATE_SELECTION_LIMIT

/-- Resolve one parsed (url, title) pair back to the working pool by exact
URL match (`next((item for item in candidate_list if item['URL'] == url),
None)`, lines 230-233), producing the output dict of lines 236-240. -/
def resolveMatch (candidate_list : List Candidate) (m : String × String) :
    Option SelectedArticle :=
  (candidate_list.find? (fun item => item.url = m.1)).map
    (fun item => ⟨m.1, m.2, item.feedId⟩)

/-- Project a working-pool item to the fallback output dict
(src/services/ai_service.py lines 250-257). -/
def toSelected (item : Candidate) : SelectedArticle :=
  ⟨item.url, item.title, item.feedId⟩

/-- Embedding of `select_news_articles` (src/services/ai_service.py
lines 151-272). The outer `except` path (lines 259-272) is unreachable in
the embedding because every candidate record has all fields present. -/
def select_news_articles (candidates shuffled : List Candidate)
    (llmMatches : Option (List (String × String))) (max_count : Nat) :
    List SelectedArticle :=
  let candidate_list := workingPool shuffled
  let selected_articles :=
    match llmMatches with
    | none => []
    | some ms => ms.filterMap (resolveMatch candidate_list)
  if selected_articles ≠ [] then
    selected_articles.take max_count
  else
    (candidate_list.take max_count).map toSelected

/-- Number of breaking articles (`Source_Count > 1`) in a list. -/
def breakingCount (l : List Candidate) : Nat :=
  (l.filter (fun c => 1 < c.sourceCount)).length

/-! ## check_content_similarity (src/services/ai_service.py lines 77-149)

The Gemini call of the Tier-2 branch is passed in as
`llmResponse : Option String`: `none` models `generate_content` raising
(the `except` of lines 143-145), `some r` a response with text `r`.
-/

/-- Keyword set of a title (src/services/ai_service.py lines 96-97 and
104-105): `set(re.sub(r'[^\w\s]', '', title.lower()).split())` filtered to
words with `len(w) > MIN_KEYWORD_LENGTH`. `\w` is a letter, digit or
underscore; `split()` splits on whitespace runs, producing no empties. -/
def titleKeywords (title : String) : Finset String :=
  let cleaned := (lowerChars title.data).filter
    (fun c => c.isAlphanum || c = '_' || c.isWhitespace)
  let words := ((cleaned.splitOnP (fun c => c.isWhitespace)).filter
    (· ≠ [])).map String.mk
  (words.filter (fun w => MIN_KEYWORD_LENGTH < w.length)).toFinset

/-- Does one recent post trigger the Tier-1 keyword short-circuit
(src/services/ai_service.py lines 100-114)? A post with a `None` or empty
title is skipped; then both keyword sets must be non-empty and
`overlap / min(|a|, |b|) > 0.5`, embedded exactly as `2 * overlap > min`. -/
def tier1Hit (title_words : Finset String) (post : FeedPost) : Bool :=
  match post.title with
  | none => false
  | some t =>
    if t = "" then false
    else
      let post_title_words := titleKeywords t
      decide (0 < title_words.card ∧ 0 < post_title_words.card ∧
        min title_words.card post_title_words.card <
          2 * (title_words ∩ post_title_words).card)

/-- The Tier-1 loop over the first `SIMILARITY_CHECK_POSTS_LIMIT` posts. -/
def tier1Match (article_title : String) (posts_to_check : List FeedPost) :
    Bool :=
  posts_to_check.any (tier1Hit (titleKeywords article_title))

/-- Embedding of `check_content_similarity` (src/services/ai_service.py
lines 77-149). `article_text` only feeds the Tier-2 prompt and does not
influence the embedded result beyond the `llmResponse` value. -/
def check_content_similarity (article_title article_text : String)
    (recent_posts : List FeedPost) (llmResponse : Option String) : Bool :=
  let posts_to_check := recent_posts.take SIMILARITY_CHECK_POSTS_LIMIT
  if tier1Match article_title posts_to_check then
    true
  else
    match llmResponse with
    | none => false
    | some r => pyUpper (pyTrim r) = "SIMILAR"

/-! ## URL history (src/services/article_service.py lines 285-325)

The newline-delimited history file is modelled by the list of its
non-blank lines, oldest first, which is exactly what `_get_posted_urls`
returns. -/

/-- Embedding of `_add_url_to_history` (src/services/article_service.py
lines 303-321) on the in-memory history list, with the service's
`max_history_lines` / `cleanup_threshold` parameters. -/
def add_url_to_history (history : List String) (url : String)
    (max_history_lines cleanup_threshold : Nat) : List String :=
  let urls := if history.contains url then history else history ++ [url]
  if max_history_lines < urls.length then urls.drop cleanup_threshold
  else urls

/-- Embedding of `is_url_in_history` (src/services/article_service.py
lines 323-325). -/
def is_url_in_history (history : List String) (url : String) : Bool :=
  history.contains url

/-! ## is_private_ip and validate_url (src/utils/helpers.py lines 47-161)

DNS resolution (`socket.getaddrinfo`) is an external effect, passed in as
`resolver : String → Option (List IpAddr)`: `none` models resolution
raising (`gaierror` etc.), `some ips` the parsed addresses of the
returned address records. Address classification follows CPython's
`ipaddress` module; since the resolver hands back parsed addresses, IPv6
results are carried as eight 16-bit groups. -/

/-- A parsed IP address as classified by `ipaddress.ip_address`. -/
inductive IpAddr where
  | v4 (a b c d : Nat)
  | v6 (g0 g1 g2 g3 g4 g5 g6 g7 : Nat)
deriving DecidableEq, Repr

/-- CPython `IPv4Address.is_private`: membership in the enumerated private
network list (0.0.0.0/8, 10/8, 127/8, 169.254/16, 172.16/12, 192.0.0/29,
192.0.0.170/31, 192.0.2/24, 192.168/16, 198.18/15, 198.51.100/24,
203.0.113/24, 240/4, 255.255.255.255/32). -/
def ipv4IsPrivate (a b c d : Nat) : Bool :=
  a = 0 || a = 10 || a = 127 || (a = 169 && b = 254) ||
  (a = 172 && 16 ≤ b && b ≤ 31) ||
  (a = 192 && b = 0 && c = 0 && d ≤ 7) ||
  (a = 192 && b = 0 && c = 0 && (d = 170 || d = 171)) ||
  (a = 192 && b = 0 && c = 2) || (a = 192 && b = 168) ||
  (a = 198 && (b = 18 || b = 19)) || (a = 198 && b = 51 && c = 100) ||
  (a = 203 && b = 0 && c = 113) || 240 ≤ a ||
  (a = 255 && b = 255 && c = 255 && d = 255)

/-- CPython `IPv6Address.is_private` (::1/128, ::/128, ::ffff:0:0/96,
100::/64, 2001::/23, 2001:db8::/32, fc00::/7, fe80::/10). -/
def ipv6IsPrivate (g0 g1 g2 g3 g4 g5 g6 g7 : Nat) : Bool :=
  (g0 = 0 && g1 = 0 && g2 = 0 && g3 = 0 && g4 = 0 && g5 = 0 && g6 = 0 &&
    (g7 = 0 || g7 = 1)) ||
  (g0 = 0 && g1 = 0 && g2 = 0 && g3 = 0 && g4 = 0 && g5 = 0xffff) ||
  (g0 = 0x100 && g1 = 0 && g2 = 0 && g3 = 0) ||
  (g0 = 0x2001 && g1 < 0x200) || (g0 = 0x2001 && g1 = 0xdb8) ||
  (g0 / 512 = 0x7e) || (g0 / 64 = 0x3fa)

/-- CPython `IPv6Address.is_reserved`: the enumerated reserved network
list, all of which constrain only the leading bits of the first group. -/
def ipv6IsReserved (g0 : Nat) : Bool :=
  (g0 / 256 = 0) || (g0 / 256 = 1) || (g0 / 512 = 1) || (g0 / 1024 = 1) ||
  (g0 / 2048 = 1) || (g0 / 4096 = 1) || (g0 / 8192 = 2) ||
  (g0 / 8192 = 3) || (g0 / 8192 = 4) || (g0 / 8192 = 5) ||
  (g0 / 8192 = 6) || (g0 / 4096 = 0xe) || (g0 / 2048 = 0x1e) ||
  (g0 / 1024 = 0x3e) || (g0 / 128 = 0x1fc)

/-- The disjunction tested by `is_private_ip` for one parsed address
(src/utils/helpers.py lines 72-77 and 92-96): private, loopback,
link-local or reserved, or the AWS metadata endpoint 169.254.169.254
(itself link-local, kept for fidelity to the source's explicit check). -/
def badIp : IpAddr → Bool
  | .v4 a b c d =>
    ipv4IsPrivate a b c d || a = 127 || (a = 169 && b = 254) || 240 ≤ a ||
      (a = 169 && b = 254 && c = 169 && d = 254)
  | .v6 g0 g1 g2 g3 g4 g5 g6 g7 =>
    ipv6IsPrivate g0 g1 g2 g3 g4 g5 g6 g7 ||
    (g0 = 0 && g1 = 0 && g2 = 0 && g3 = 0 && g4 = 0 && g5 = 0 && g6 = 0 &&
      g7 = 1) ||
    (g0 / 64 = 0x3fa) || ipv6IsReserved g0

/-- The hard-coded localhost set (src/utils/helpers.py line 61). -/
def localhost_patterns : List String :=
  ["localhost", "localhost.localdomain", "127.0.0.1", "::1", "[::1]"]

/-- A DNS resolver behaviour: `none` is a resolution failure. -/
def Resolver : Type := String → Option (List IpAddr)

/-- Embedding of `is_private_ip` (src/utils/helpers.py lines 47-104). -/
def is_private_ip (hostname : String) (resolver : Resolver) : Bool :=
  if localhost_patterns.contains (pyLower hostname) then true
  else
    let clean_hostname := pyStrip ['[', ']'] hostname.data
    match parseIPv4 clean_hostname with
    | some (a, b, c, d) => badIp (.v4 a b c d)
    | none =>
      match resolver hostname with
      | none => false
      | some ips => ips.any badIp

/-- Embedding of `validate_url` (src/utils/helpers.py lines 107-161):
the ordered, short-circuiting checks. The `urlparse` call itself never
raises on a `str`, so the parse-failure branch (lines 135-138) is
unreachable. -/
def validate_url (url : String) (resolver : Resolver) :
    Bool × Option String :=
  if url = "" then (false, some "URL is empty or not a string")
  else if MAX_URL_LENGTH < url.length then
    (false, some "URL exceeds maximum length of 2048 characters")
  else
    match urlScheme url.data with
    | none => (false, some "URL has no scheme")
    | some scheme =>
      if ¬ (scheme = "http".data ∨ scheme = "https".data) then
        (false, some ("URL scheme is not allowed (only http/https)"))
      else
        let netloc := urlNetloc url.data
        if netloc = [] then (false, some "URL has no domain")
        else
          let hostname := String.mk (beforeChar ':' netloc)
          if hostname = "" then (false, some "URL has empty hostname")
          else if is_private_ip hostname resolver then
            (false, some ("URL points to private/internal address: " ++
              hostname))
          else
            (true, none)

/-! ## The orchestrator's per-candidate loop (src/main.py lines 127-269)

External collaborators are grouped into an oracle record fixing their
behaviour for one run. The publish calls are keyed by the fetched
article's URL (the value `main.run` passes them). Each processed
candidate yields a trace of the pipeline stages that were actually
invoked for it; candidates the loop never reaches contribute no trace. -/

/-- One pipeline stage invocation, recorded with the value it was
invoked on. -/
inductive Event where
  | resolveUrl (url : String)
  | fetchArticle (url : String)
  | simCheck (title : String)
  | generateTweet (title : String)
  | publishBsky (url : String)
  | publishTwitter (url : String)
deriving DecidableEq, Repr

/-- The behaviours of the run's external collaborators. -/
structure Oracles where
  inHistory : String → Bool
  getRealUrl : String → Option String
  fetchArticle : String → Option ArticleContent
  similar : String → String → Bool
  generateTweet : ArticleContent → Option TweetData
  postBsky : String → Bool
  postTwitter : String → Bool

/-- The Google News test of src/main.py lines 137-138:
`extract_base_domain(url) == "google.com" and "news.google.com" in url`. -/
def isGoogleNewsUrl (url : String) : Bool :=
  extract_base_domain url = some "google.com" &&
    hasSubstrChars "news.google.com".data url.data

/-- Steps 6-9 of the loop body (src/main.py lines 159-261): fetch,
similarity check, tweet generation, and publishing, starting from the URL
the earlier steps settled on. Returns the candidate's success flag and
its stage trace. -/
def fetchStage (o : Oracles) (test_mode : Bool) (platforms : List String)
    (url : String) : Bool × List Event :=
  match o.fetchArticle url with
  | none => (false, [Event.fetchArticle url])
  | some content =>
    if o.similar content.title content.text then
      (false, [Event.fetchArticle url, Event.simCheck content.title])
    else
      match o.generateTweet content with
      | none =>
        (false, [Event.fetchArticle url, Event.simCheck content.title,
          Event.generateTweet content.title])
      | some _ =>
        let base := [Event.fetchArticle url, Event.simCheck content.title,
          Event.generateTweet content.title]
        if test_mode then (true, base)
        else
          let success :=
            (platforms.contains "bluesky" && o.postBsky content.url) ||
            (platforms.contains "twitter" && o.postTwitter content.url)
          (success,
            base ++
            (if platforms.contains "bluesky" then
              [Event.publishBsky content.url] else []) ++
            (if platforms.contains "twitter" then
              [Event.publishTwitter content.url] else []))

/-- One iteration of the candidate loop (src/main.py lines 127-261):
history check, Google News resolution with post-resolution domain checks,
then the fetch stage. On resolution failure (`get_real_url` returning
`None`) the source falls through to fetch the original URL — there is no
`continue` on that path. -/
def processCandidate (o : Oracles) (test_mode : Bool)
    (platforms blocked_domains paywall_domains : List String)
    (a : SelectedArticle) : Bool × List Event :=
  if o.inHistory a.url then (false, [])
  else if isGoogleNewsUrl a.url then
    match o.getRealUrl a.url with
    | some real_url =>
      if is_domain_match real_url blocked_domains then
        (false, [Event.resolveUrl a.url])
      else if (extract_base_domain real_url).elim false
          (fun d => d ≠ "" &&
            (endsWithChars ".gov".data d.data ||
             endsWithChars ".mil".data d.data)) then
        (false, [Event.resolveUrl a.url])
      else if is_domain_match real_url paywall_domains then
        (false, [Event.resolveUrl a.url])
      else
        let (s, evs) := fetchStage o test_mode platforms real_url
        (s, Event.resolveUrl a.url :: evs)
    | none =>
      let (s, evs) := fetchStage o test_mode platforms a.url
      (s, Event.resolveUrl a.url :: evs)
  else
    fetchStage o test_mode platforms a.url

/-- The retry loop over the selected candidates (src/main.py
lines 127-269): candidates are tried strictly in order; the loop returns
at the first success. The result pairs the run's success flag with the
per-candidate traces of the candidates that were actually processed. -/
def runLoop (o : Oracles) (test_mode : Bool)
    (platforms blocked_domains paywall_domains : List String) :
    List SelectedArticle → Bool × List (SelectedArticle × List Event)
  | [] => (false, [])
  | a :: rest =>
    let (success, evs) :=
      processCandidate o test_mode platforms blocked_domains
        paywall_domains a
    if success then (true, [(a, evs)])
    else
      let (r, ts) :=
        runLoop o test_mode platforms blocked_domains paywall_domains rest
      (r, (a, evs) :: ts)

/-! # Second definitions following the spec's words

These definitions are NOT translated from the source; they formalise what
the spec claims the code does, for comparison with the embedded code. -/

/-- Insert a candidate into a sourceCount-descending list (helper for the
spec's claimed sort order). -/
def insertDescBySC (c : Candidate) : List Candidate → List Candidate
  | [] => [c]
  | d :: ds =>
    if d.sourceCount ≤ c.sourceCount then c :: d :: ds
    else d :: insertDescBySC c ds

/-- Insertion sort by `sourceCount` descending (helper for the spec's
claimed working-pool order). -/
def sortDescBySC : List Candidate → List Candidate
  | [] => []
  | c :: cs => insertDescBySC c (sortDescBySC cs)

/-- The working pool as the spec describes it (spec §4.3 Steps 1-4, and
claims C1/C3): breaking articles (`sourceCount > 1`) sorted by
`sourceCount` descending and capped at `⌊poolSelectionLimit / 2⌋`,
followed by the shuffled regular articles filling up to the limit.
`regular_shuffled` stands for the shuffled `sourceCount ≤ 1` articles. -/
def specWorkingPool (pool regular_shuffled : List Candidate) :
    List Candidate :=
  let breaking := (sortDescBySC
    (pool.filter (fun c => 1 < c.sourceCount))).take
      (CANDIDATE_SELECTION_LIMIT / 2)
  breaking ++
    regular_shuffled.take (CANDIDATE_SELECTION_LIMIT - breaking.length)

/-- Title tokenisation as the spec's words describe it (spec §4.4 /
claim C6): "discarding tokens shorter than `minKeywordLength`", i.e.
keeping tokens of length at least `MIN_KEYWORD_LENGTH` — whereas the code
keeps only tokens of length strictly greater than `MIN_KEYWORD_LENGTH`. -/
def specTitleTokens (title : String) : Finset String :=
  let cleaned := (lowerChars title.data).filter
    (fun c => c.isAlphanum || c = '_' || c.isWhitespace)
  let words := ((cleaned.splitOnP (fun c => c.isWhitespace)).filter
    (· ≠ [])).map String.mk
  (words.filter (fun w => MIN_KEYWORD_LENGTH ≤ w.length)).toFinset

/-! # Claims -/

/-! ## C1 — breaking-news cap in the working pool -/

/-- A pool of 40 breaking articles (`Source_Count = 2`), fewer than
`CANDIDATE_SELECTION_LIMIT` but more than half of it. -/
def c1Pool : List Candidate :=
  (List.range 40).map (fun i => ⟨toString i, toString i, i, 2⟩)

/-- C1: the claim says the working pool admits at most
`⌊CANDIDATE_SELECTION_LIMIT / 2⌋ = 30` breaking (`sourceCount > 1`)
articles. The code (src/services/ai_service.py lines 163-168) builds the
working pool as a uniform shuffle of the whole pool truncated at the
limit, with no breaking partition, sort or cap: on a pool of 40 breaking
articles, every possible shuffle yields a working pool containing all 40
breaking articles, exceeding the claimed cap of 30. -/
theorem c1_breaking_cap_violated (shuffled : List Candidate)
    (hperm : shuffled.Perm c1Pool) :
    breakingCount (workingPool shuffled) = 40 ∧
    CANDIDATE_SELECTION_LIMIT / 2 < breakingCount (workingPool shuffled) := by
  have hlen : shuffled.length = 40 := by
    rw [hperm.length_eq]; decide
  have htake : workingPool shuffled = shuffled := by
    unfold workingPool CANDIDATE_SELECTION_LIMIT
    exact List.take_of_length_le (by omega)
  have hcount : breakingCount shuffled = 40 := by
    unfold breakingCount
    rw [← List.countP_eq_length_filter, hperm.countP_eq,
      List.countP_eq_length_filter]
    decide
  rw [htake, hcount]
  exact ⟨rfl, by decide⟩

/-- Witness for C1 at the identity shuffle. -/
theorem c1_breaking_cap_violated_witness :
    breakingCount (workingPool c1Pool) = 40 ∧
    CANDIDATE_SELECTION_LIMIT / 2 < breakingCount (workingPool c1Pool) :=
  c1_breaking_cap_violated c1Pool (List.Perm.refl c1Pool)

/-! ## C4 — exact base-domain matching -/

/-- C4: `is_domain_match url list` is true exactly when the registrable
base domain extracted from `url` (host lowercased, port stripped, IP
literals verbatim, last two labels — or three for an enumerated compound
TLD) equals some entry of a list of normalised, non-empty base-domain
strings; the three spec examples behave as claimed, and a URL whose base
domain cannot be extracted matches nothing. -/
theorem c4_domain_match_iff (url : String) (domain_list : List String)
    (hnorm : ∀ d ∈ domain_list, pyTrim (pyLower d) = d)
    (hne : ∀ d ∈ domain_list, d ≠ "") :
    (is_domain_match url domain_list = true ↔
      ∃ d ∈ domain_list, extract_base_domain url = some d) ∧
    is_domain_match "https://evil.com/wsj.com" ["wsj.com"] = false ∧
    is_domain_match "https://notwsj.com" ["wsj.com"] = false ∧
    is_domain_match "https://sub.wsj.com" ["wsj.com"] = true ∧
    (∀ u : String, extract_base_domain u = none →
      is_domain_match u domain_list = false) := by
  refine ⟨?_, by decide, by decide, by decide, ?_⟩
  · have hmap : domain_list.map (fun d => pyTrim (pyLower d)) = domain_list :=
      (List.map_congr_left hnorm).trans (List.map_id domain_list)
    unfold is_domain_match
    split
    · rename_i heq
      simp [heq]
    · rename_i bd heq
      rw [heq]
      by_cases hbd : bd = ""
      · subst hbd
        rw [if_pos rfl]
        constructor
        · intro h; exact absurd h Bool.false_ne_true
        · rintro ⟨d, hd, hdeq⟩
          exact absurd (Option.some.inj hdeq).symm (hne d hd)
      · rw [if_neg hbd, hmap]
        constructor
        · intro h; exact ⟨bd, List.elem_iff.mp h, rfl⟩
        · rintro ⟨d, hd, hdeq⟩
          exact List.elem_iff.mpr ((Option.some.inj hdeq) ▸ hd)
  · intro u hu
    unfold is_domain_match
    rw [hu]

/-- Witness for C4 on the blocked list `["wsj.com"]`. -/
theorem c4_domain_match_iff_witness :
    is_domain_match "https://sub.wsj.com" ["wsj.com"] = true ↔
      ∃ d ∈ ["wsj.com"], extract_base_domain "https://sub.wsj.com" = some d :=
  (c4_domain_match_iff "https://sub.wsj.com" ["wsj.com"]
    (by decide) (by decide)).1

/-! ## C2 — duplicate feedId in the output -/

/-- A two-article candidate pool with distinct URLs and feedIds. -/
def c2Pool : List Candidate :=
  [⟨"u1", "t1", 1, 1⟩, ⟨"u2", "t2", 2, 1⟩]

/-- C2 counterexample: the claim asserts the output never contains two
entries with the same feedId, for every possible LLM response including
ones repeating a URL. When the parsed response repeats `u1`, the code
(src/services/ai_service.py lines 225-240) resolves both occurrences to
the same candidate and appends both, so the output carries feedId 1
twice. -/
theorem c2_counterexample :
    (select_news_articles c2Pool c2Pool (some [("u1", "A"), ("u1", "B")]) 2
      ).map SelectedArticle.feedId = [1, 1] ∧
    ¬ ((select_news_articles c2Pool c2Pool (some [("u1", "A"), ("u1", "B")])
      2).map SelectedArticle.feedId).Nodup := by
  refine ⟨by decide, by decide⟩

/-- A successfully resolved match names a working-pool candidate with the
matched URL, whose feedId it carries. -/
theorem resolveMatch_spec {cl : List Candidate} {m : String × String}
    {a : SelectedArticle} (h : resolveMatch cl m = some a) :
    ∃ i ∈ cl, i.url = m.1 ∧ a.feedId = i.feedId := by
  unfold resolveMatch at h
  cases hf : cl.find? (fun item => item.url = m.1) with
  | none => rw [hf] at h; cases h
  | some i =>
    rw [hf] at h
    refine ⟨i, List.mem_of_find?_eq_some hf, ?_, ?_⟩
    · have := List.find?_some hf
      exact of_decide_eq_true this
    · cases h; rfl

/-- Resolving a list of parsed matches with pairwise-distinct URLs against
a working pool with pairwise-distinct feedIds yields pairwise-distinct
feedIds. -/
theorem nodup_feedId_of_resolve (cl : List Candidate)
    (hids : (cl.map Candidate.feedId).Nodup) :
    ∀ ms : List (String × String), (ms.map Prod.fst).Nodup →
      ((ms.filterMap (resolveMatch cl)).map SelectedArticle.feedId).Nodup := by
  intro ms
  induction ms with
  | nil => intro _; simp
  | cons m rest ih =>
    intro hnd
    rw [List.map_cons, List.nodup_cons] at hnd
    obtain ⟨hm, hrest⟩ := hnd
    cases hr : resolveMatch cl m with
    | none =>
      rw [List.filterMap_cons_none hr]
      exact ih hrest
    | some a =>
      rw [List.filterMap_cons_some hr, List.map_cons, List.nodup_cons]
      refine ⟨?_, ih hrest⟩
      intro hmem
      obtain ⟨b, hb, hfeed⟩ := List.mem_map.mp hmem
      obtain ⟨m', hm', hrb⟩ := List.mem_filterMap.mp hb
      obtain ⟨i, hi, hiurl, hia⟩ := resolveMatch_spec hr
      obtain ⟨j, hj, hjurl, hjb⟩ := resolveMatch_spec hrb
      have hij : i = j :=
        List.inj_on_of_nodup_map hids hi hj (by rw [← hia, ← hjb, hfeed])
      have : m.1 = m'.1 := by rw [← hiurl, hij, hjurl]
      exact hm (this ▸ List.mem_map_of_mem Prod.fst hm')

/-- C2 amended: for every pool, shuffle, requested maximum and LLM
response, the output length is at most `max_count`; and the output has no
duplicate feedId provided the parsed response repeats no URL and the
working pool carries pairwise-distinct feedIds (the repository's data
model declares feedIds unique per row). Without the no-repeated-URL
proviso the claim fails (`c2_counterexample`). -/
theorem c2_output_invariants (candidates shuffled : List Candidate)
    (llmMatches : Option (List (String × String))) (max_count : Nat)
    (hids : ((workingPool shuffled).map Candidate.feedId).Nodup)
    (hurls : ∀ ms, llmMatches = some ms → (ms.map Prod.fst).Nodup) :
    (select_news_articles candidates shuffled llmMatches max_count).length
      ≤ max_count ∧
    ((select_news_articles candidates shuffled llmMatches max_count).map
      SelectedArticle.feedId).Nodup := by
  have hfall :
      (((workingPool shuffled).take max_count).map toSelected).length
        ≤ max_count ∧
      ((((workingPool shuffled).take max_count).map toSelected).map
        SelectedArticle.feedId).Nodup := by
    constructor
    · rw [List.length_map]; exact List.length_take_le _ _
    · rw [List.map_map]
      change (((workingPool shuffled).take max_count).map
        Candidate.feedId).Nodup
      rw [List.map_take]
      exact hids.sublist (List.take_sublist _ _)
  cases llmMatches with
  | none =>
    simp only [select_news_articles]
    rw [if_neg (by simp)]
    exact hfall
  | some ms =>
    simp only [select_news_articles]
    by_cases hemp : ms.filterMap (resolveMatch (workingPool shuffled)) = []
    · rw [if_neg (by simp [hemp])]
      exact hfall
    · rw [if_pos (by simpa using hemp)]
      refine ⟨List.length_take_le _ _, ?_⟩
      rw [List.map_take]
      exact (nodup_feedId_of_resolve _ hids ms (hurls ms rfl)).sublist
        (List.take_sublist _ _)

/-- Witness for C2 amended at a concrete pool and response. -/
theorem c2_output_invariants_witness :
    (select_news_articles c2Pool c2Pool (some [("u1", "t1")]) 2).length ≤ 2 ∧
    ((select_news_articles c2Pool c2Pool (some [("u1", "t1")]) 2).map
      SelectedArticle.feedId).Nodup :=
  c2_output_invariants c2Pool c2Pool (some [("u1", "t1")]) 2 (by decide)
    (by intro ms h; cases h; decide)

/-! ## C3 — fallback on LLM failure -/

/-- A pool with one regular and one breaking article. -/
def c3Pool : List Candidate :=
  [⟨"r", "rt", 1, 1⟩, ⟨"b", "bt", 2, 5⟩]

/-- C3 counterexample: the claim describes the working pool's existing
order as "sorted breaking first, then shuffled regular". For the shuffle
that leaves `c3Pool` in place (a possible outcome of `random.shuffle`),
the code's fallback returns the regular article first, while the claimed
breaking-first order would return the breaking one: the code's working
pool is just the shuffled pool truncated, with no breaking-first layout. -/
theorem c3_counterexample :
    select_news_articles c3Pool c3Pool none 1 = [⟨"r", "rt", 1⟩] ∧
    ((specWorkingPool c3Pool
      (c3Pool.filter (fun c => c.sourceCount ≤ 1))).take 1).map toSelected
      = [⟨"b", "bt", 2⟩] ∧
    select_news_articles c3Pool c3Pool none 1 ≠
      ((specWorkingPool c3Pool
        (c3Pool.filter (fun c => c.sourceCount ≤ 1))).take 1).map
        toSelected := by
  refine ⟨by decide, by decide, by decide⟩

/-- C3 amended: if the LLM ranking call raises, or its parsed response
resolves to zero working-pool entries, `select_news_articles` raises no
exception and returns exactly the first `max_count` items of the working
pool in its existing order — the uniformly shuffled candidate list
truncated at the selection limit (not a breaking-first layout); the
result is non-empty whenever the pool is non-empty and at least one
article is requested. -/
theorem c3_fallback (pool shuffled : List Candidate)
    (llmMatches : Option (List (String × String))) (max_count : Nat)
    (hperm : shuffled.Perm pool)
    (hfail : llmMatches = none ∨ ∃ ms, llmMatches = some ms ∧
      ms.filterMap (resolveMatch (workingPool shuffled)) = []) :
    select_news_articles pool shuffled llmMatches max_count =
      ((workingPool shuffled).take max_count).map toSelected ∧
    (1 ≤ max_count → pool ≠ [] →
      select_news_articles pool shuffled llmMatches max_count ≠ []) := by
  have hmain : select_news_articles pool shuffled llmMatches max_count =
      ((workingPool shuffled).take max_count).map toSelected := by
    rcases hfail with hnone | ⟨ms, hms, hemp⟩
    · subst hnone
      simp only [select_news_articles]
      rw [if_neg (by simp)]
    · subst hms
      simp only [select_news_articles]
      rw [if_neg (by simp [hemp])]
  refine ⟨hmain, ?_⟩
  intro hmax hpool
  rw [hmain]
  intro hnil
  rw [List.map_eq_nil_iff, List.take_eq_nil_iff] at hnil
  rcases hnil with h | h
  · omega
  · unfold workingPool at h
    rw [List.take_eq_nil_iff] at h
    rcases h with h | h
    · exact absurd h (by decide)
    · rw [h] at hperm
      exact hpool hperm.symm.eq_nil

/-- Witness for C3 amended at a concrete pool and failing LLM call. -/
theorem c3_fallback_witness :
    select_news_articles c3Pool c3Pool none 1 =
      ((workingPool c3Pool).take 1).map toSelected ∧
    (1 ≤ 1 → c3Pool ≠ [] → select_news_articles c3Pool c3Pool none 1 ≠ []) :=
  c3_fallback c3Pool c3Pool none 1 (List.Perm.refl c3Pool) (Or.inl rfl)

/-! ## C6 — Tier-1 keyword short-circuit -/

/-- A recent post whose title consists of three-letter words only. -/
def c6Post : FeedPost := ⟨"", none, some "cat dog fox", 0⟩

/-- C6 counterexample: the claim tokenises by "discarding tokens shorter
than `minKeywordLength` (default 3)", i.e. keeping three-letter words.
For the title "cat dog fox" against an identical recent title, those
tokens give overlap ratio 1 > 0.5, so the claim promises `true` without
the LLM. The code keeps only words with `len(w) > 3`
(src/services/ai_service.py lines 97 and 105), leaving both keyword sets
empty, skipping the Tier-1 check and deferring to the LLM, which may
fail or answer DIFFERENT, making the result `false`. -/
theorem c6_counterexample :
    (0 < (specTitleTokens "cat dog fox").card ∧
      min (specTitleTokens "cat dog fox").card
          (specTitleTokens "cat dog fox").card <
        2 * ((specTitleTokens "cat dog fox") ∩
          (specTitleTokens "cat dog fox")).card) ∧
    check_content_similarity "cat dog fox" "" [c6Post] none = false ∧
    check_content_similarity "cat dog fox" "" [c6Post] (some "DIFFERENT")
      = false := by
  refine ⟨by decide, by decide, by decide⟩

/-- C6 amended: tokens are obtained by stripping punctuation, lowercasing,
splitting on whitespace, and keeping only tokens of length strictly
greater than `MIN_KEYWORD_LENGTH` (i.e. discarding tokens of length at
most 3). If among the first `SIMILARITY_CHECK_POSTS_LIMIT` recent posts
some post has a present, non-empty title whose token set and the
candidate's token set are both non-empty with
`overlap > 0.5 * min(|candidate|, |post|)`, then `check_content_similarity`
returns true whatever the Tier-2 LLM would do; posts with absent titles
or empty token sets on either side trigger no Tier-1 hit, so no division
by zero occurs. -/
theorem c6_tier1_short_circuit (article_title article_text : String)
    (recent_posts : List FeedPost) (llmResponse : Option String)
    (post : FeedPost) (t : String)
    (hmem : post ∈ recent_posts.take SIMILARITY_CHECK_POSTS_LIMIT)
    (ht : post.title = some t) (hne : t ≠ "")
    (ha : 0 < (titleKeywords article_title).card)
    (hb : 0 < (titleKeywords t).card)
    (hover : min (titleKeywords article_title).card (titleKeywords t).card
      < 2 * ((titleKeywords article_title) ∩ (titleKeywords t)).card) :
    check_content_similarity article_title article_text recent_posts
      llmResponse = true := by
  have hhit : tier1Hit (titleKeywords article_title) post = true := by
    simp only [tier1Hit, ht, if_neg hne]
    exact decide_eq_true ⟨ha, hb, hover⟩
  have hmatch : tier1Match article_title
      (recent_posts.take SIMILARITY_CHECK_POSTS_LIMIT) = true :=
    List.any_eq_true.mpr ⟨post, hmem, hhit⟩
  unfold check_content_similarity
  rw [if_pos hmatch]

/-- Witness for C6 amended on a concrete overlapping title. -/
theorem c6_tier1_short_circuit_witness :
    check_content_similarity "alpha beta" ""
      [⟨"", none, some "alpha beta gamma", 0⟩] none = true :=
  c6_tier1_short_circuit "alpha beta" ""
    [⟨"", none, some "alpha beta gamma", 0⟩] none
    ⟨"", none, some "alpha beta gamma", 0⟩ "alpha beta gamma"
    (by decide) (by decide) (by decide) (by decide) (by decide) (by decide)

/-! ## C7 — Tier-2 fail-open -/

/-- C7: when Tier 1 finds no keyword match (so the Tier-2 LLM call is
reached), an LLM error yields `false` with no exception propagating, and
a successful call yields `true` exactly when the trimmed, uppercased
response equals "SIMILAR". -/
theorem c7_tier2_fail_open (article_title article_text : String)
    (recent_posts : List FeedPost)
    (h : tier1Match article_title
      (recent_posts.take SIMILARITY_CHECK_POSTS_LIMIT) = false) :
    check_content_similarity article_title article_text recent_posts none
      = false ∧
    ∀ r : String,
      (check_content_similarity article_title article_text recent_posts
        (some r) = true ↔ pyUpper (pyTrim r) = "SIMILAR") := by
  constructor
  · unfold check_content_similarity
    rw [if_neg (by rw [h]; exact Bool.false_ne_true)]
  · intro r
    unfold check_content_similarity
    rw [if_neg (by rw [h]; exact Bool.false_ne_true)]
    exact decide_eq_true_iff

/-- Witness for C7 at an empty Tier-1 context and two responses. -/
theorem c7_tier2_fail_open_witness :
    check_content_similarity "x" "" [] none = false ∧
    (check_content_similarity "x" "" [] (some " similar ") = true ↔
      pyUpper (pyTrim " similar ") = "SIMILAR") :=
  ⟨(c7_tier2_fail_open "x" "" [] (by decide)).1,
   (c7_tier2_fail_open "x" "" [] (by decide)).2 " similar "⟩

/-! ## C10 — URL history add is duplicate-free and idempotent -/

/-- C10: for a duplicate-free history of at most `MAX_HISTORY_LINES`
entries, adding a URL yields a duplicate-free history containing it
exactly once; adding it again leaves the history unchanged; and
`is_url_in_history` then reports it present. -/
theorem c10_history_add (history : List String) (url : String)
    (hlen : history.length ≤ MAX_HISTORY_LINES) (hnd : history.Nodup) :
    (add_url_to_history history url MAX_HISTORY_LINES
      CLEANUP_THRESHOLD).Nodup ∧
    (add_url_to_history history url MAX_HISTORY_LINES
      CLEANUP_THRESHOLD).count url = 1 ∧
    add_url_to_history
      (add_url_to_history history url MAX_HISTORY_LINES CLEANUP_THRESHOLD)
      url MAX_HISTORY_LINES CLEANUP_THRESHOLD =
      add_url_to_history history url MAX_HISTORY_LINES CLEANUP_THRESHOLD ∧
    is_url_in_history
      (add_url_to_history history url MAX_HISTORY_LINES CLEANUP_THRESHOLD)
      url = true := by
  unfold MAX_HISTORY_LINES CLEANUP_THRESHOLD at *
  have key : ∀ h' : List String, h'.Nodup → h'.length ≤ 100 → url ∈ h' →
      add_url_to_history h' url 100 10 = h' := by
    intro h' hnd' hlen' hmem'
    unfold add_url_to_history
    rw [if_pos (List.elem_iff.mpr hmem'), if_neg (by omega)]
  by_cases hmem : url ∈ history
  · have h1 : add_url_to_history history url 100 10 = history :=
      key history hnd hlen hmem
    rw [h1]
    exact ⟨hnd, List.count_eq_one_of_mem hnd hmem,
      key history hnd hlen hmem, List.elem_iff.mpr hmem⟩
  · have happlen : (history ++ [url]).length = history.length + 1 := by
      rw [List.length_append, List.length_singleton]
    by_cases hfull : history.length = 100
    · have h1 : add_url_to_history history url 100 10 =
          history.drop 10 ++ [url] := by
        unfold add_url_to_history
        have hc1 : history.contains url = false := by simpa using hmem
        rw [hc1, if_neg Bool.false_ne_true, if_pos (by rw [happlen]; omega)]
        exact List.drop_append_of_le_length (by omega)
      rw [h1]
      have hnd10 : (history.drop 10).Nodup :=
        hnd.sublist (List.drop_sublist 10 history)
      have hmem10 : url ∉ history.drop 10 := fun hx =>
        hmem ((List.drop_sublist 10 history).mem hx)
      have hnd' : (history.drop 10 ++ [url]).Nodup := by
        rw [List.nodup_append]
        exact ⟨hnd10, List.nodup_singleton url,
          fun a ha hb => by
            rw [List.mem_singleton] at hb; exact hmem10 (hb ▸ ha)⟩
      have hmem' : url ∈ history.drop 10 ++ [url] :=
        List.mem_append_right _ (List.mem_singleton_self url)
      have hlen' : (history.drop 10 ++ [url]).length ≤ 100 := by
        rw [List.length_append, List.length_drop, List.length_singleton]
        omega
      exact ⟨hnd', List.count_eq_one_of_mem hnd' hmem',
        key _ hnd' hlen' hmem', List.elem_iff.mpr hmem'⟩
    · have h1 : add_url_to_history history url 100 10 = history ++ [url] := by
        unfold add_url_to_history
        have hc1 : history.contains url = false := by simpa using hmem
        rw [hc1, if_neg Bool.false_ne_true, if_neg (by rw [happlen]; omega)]
      rw [h1]
      have hnd' : (history ++ [url]).Nodup := by
        rw [List.nodup_append]
        exact ⟨hnd, List.nodup_singleton url,
          fun a ha hb => by
            rw [List.mem_singleton] at hb; exact hmem (hb ▸ ha)⟩
      have hmem' : url ∈ history ++ [url] :=
        List.mem_append_right _ (List.mem_singleton_self url)
      have hlen' : (history ++ [url]).length ≤ 100 := by omega
      exact ⟨hnd', List.count_eq_one_of_mem hnd' hmem',
        key _ hnd' hlen' hmem', List.elem_iff.mpr hmem'⟩

/-- Witness for C10 on a small concrete history. -/
theorem c10_history_add_witness :
    (add_url_to_history ["https://a.com/1"] "https://a.com/2"
      MAX_HISTORY_LINES CLEANUP_THRESHOLD).Nodup ∧
    (add_url_to_history ["https://a.com/1"] "https://a.com/2"
      MAX_HISTORY_LINES CLEANUP_THRESHOLD).count "https://a.com/2" = 1 ∧
    add_url_to_history
      (add_url_to_history ["https://a.com/1"] "https://a.com/2"
        MAX_HISTORY_LINES CLEANUP_THRESHOLD)
      "https://a.com/2" MAX_HISTORY_LINES CLEANUP_THRESHOLD =
      add_url_to_history ["https://a.com/1"] "https://a.com/2"
        MAX_HISTORY_LINES CLEANUP_THRESHOLD ∧
    is_url_in_history
      (add_url_to_history ["https://a.com/1"] "https://a.com/2"
        MAX_HISTORY_LINES CLEANUP_THRESHOLD) "https://a.com/2" = true :=
  c10_history_add ["https://a.com/1"] "https://a.com/2" (by decide)
    (by decide)

/-! ## C5 — the loop stops at the first successful candidate -/

/-- C5: the orchestrator tries candidates strictly in selection order.
If every candidate before position `k` fails and the candidate at
position `k` succeeds (in non-test mode: at least one enabled platform
published), the loop returns success having processed exactly the first
`k + 1` candidates — candidates after the successful one are never
fetched, similarity-checked, generated or published, since they
contribute no trace at all. -/
theorem c5_stops_at_first_success (o : Oracles) (test_mode : Bool)
    (platforms blocked_domains paywall_domains : List String)
    (cs : List SelectedArticle) (k : Nat) (hk : k < cs.length)
    (hbefore : ∀ a ∈ cs.take k,
      (processCandidate o test_mode platforms blocked_domains
        paywall_domains a).1 = false)
    (hsucc : (processCandidate o test_mode platforms blocked_domains
      paywall_domains (cs.get ⟨k, hk⟩)).1 = true) :
    runLoop o test_mode platforms blocked_domains paywall_domains cs =
      (true, (cs.take (k + 1)).map (fun a =>
        (a, (processCandidate o test_mode platforms blocked_domains
          paywall_domains a).2))) := by
  induction cs generalizing k with
  | nil => exact absurd hk (Nat.not_lt_zero k)
  | cons a rest ih =>
    cases k with
    | zero =>
      simp only [List.get] at hsucc
      simp only [runLoop, List.take_succ_cons, List.take_zero,
        List.map_cons, List.map_nil]
      rw [show processCandidate o test_mode platforms blocked_domains
          paywall_domains a =
        ((processCandidate o test_mode platforms blocked_domains
            paywall_domains a).1,
          (processCandidate o test_mode platforms blocked_domains
            paywall_domains a).2) from rfl, hsucc]
      simp
    | succ k' =>
      have hafalse : (processCandidate o test_mode platforms
          blocked_domains paywall_domains a).1 = false :=
        hbefore a (by rw [List.take_succ_cons]; exact List.mem_cons_self a _)
      have hk' : k' < rest.length := Nat.lt_of_succ_lt_succ hk
      have hrest := ih k' hk'
        (fun b hb => hbefore b
          (by rw [List.take_succ_cons]; exact List.mem_cons_of_mem a hb))
        (by simpa using hsucc)
      simp only [runLoop, List.take_succ_cons, List.map_cons]
      rw [show processCandidate o test_mode platforms blocked_domains
          paywall_domains a =
        ((processCandidate o test_mode platforms blocked_domains
            paywall_domains a).1,
          (processCandidate o test_mode platforms blocked_domains
            paywall_domains a).2) from rfl, hafalse, hrest]
      simp

/-- A run environment in which only the article at `u3` publishes
successfully on BlueSky. -/
def c5Oracle : Oracles where
  inHistory := fun _ => false
  getRealUrl := fun _ => none
  fetchArticle := fun u => some ⟨u, "T", "body", "s", "", none⟩
  similar := fun _ _ => false
  generateTweet := fun _ => some ⟨"tw", "s"⟩
  postBsky := fun u => u = "u3"
  postTwitter := fun _ => false

/-- Five selected candidates; the third is the one that publishes. -/
def c5Cands : List SelectedArticle :=
  [⟨"u1", "t1", 1⟩, ⟨"u2", "t2", 2⟩, ⟨"u3", "t3", 3⟩,
   ⟨"u4", "t4", 4⟩, ⟨"u5", "t5", 5⟩]

/-- Witness for C5: with five candidates of which the third succeeds, the
loop processes exactly candidates 1-3 and never touches 4 and 5. -/
theorem c5_stops_at_first_success_witness :
    runLoop c5Oracle false ["bluesky"] [] [] c5Cands =
      (true, (c5Cands.take 3).map (fun a =>
        (a, (processCandidate c5Oracle false ["bluesky"] [] [] a).2))) :=
  c5_stops_at_first_success c5Oracle false ["bluesky"] [] [] c5Cands 2
    (by decide) (by decide) (by decide)

/-! ## C9 — failed Google News resolution does not skip the candidate -/

/-- A run environment whose URL resolver always fails. -/
def c9Oracle : Oracles where
  inHistory := fun _ => false
  getRealUrl := fun _ => none
  fetchArticle := fun _ => none
  similar := fun _ _ => false
  generateTweet := fun _ => none
  postBsky := fun _ => false
  postTwitter := fun _ => false

/-- A Google News candidate. -/
def c9Cand : SelectedArticle :=
  ⟨"https://news.google.com/articles/abc", "T", 7⟩

/-- C9 counterexample: the claim says that when resolving a Google News
URL fails, the candidate is skipped and in particular never fetched. In
the code (src/main.py lines 138-158) the failure branch has no
`continue`: the loop falls through and fetches the original, unresolved
URL, as the fetch event in the candidate's trace shows. -/
theorem c9_counterexample :
    isGoogleNewsUrl c9Cand.url = true ∧
    c9Oracle.getRealUrl c9Cand.url = none ∧
    Event.fetchArticle c9Cand.url ∈
      (processCandidate c9Oracle false ["bluesky"] [] [] c9Cand).2 := by
  refine ⟨by decide, rfl, by decide⟩

/-- C9 amended: when a candidate's URL is a Google News URL not in
history and resolution fails, the orchestrator does not skip: it
proceeds directly to the fetch stage with the original unresolved URL
(performing none of the post-resolution blocked/gov-mil/paywall
re-checks); the candidate is skipped only if that fetch stage itself
fails. -/
theorem c9_resolution_failure_falls_through (o : Oracles)
    (test_mode : Bool)
    (platforms blocked_domains paywall_domains : List String)
    (a : SelectedArticle)
    (hh : o.inHistory a.url = false)
    (hg : isGoogleNewsUrl a.url = true)
    (hr : o.getRealUrl a.url = none) :
    processCandidate o test_mode platforms blocked_domains paywall_domains
      a =
      ((fetchStage o test_mode platforms a.url).1,
        Event.resolveUrl a.url ::
          (fetchStage o test_mode platforms a.url).2) := by
  unfold processCandidate
  rw [hh, hg, hr]
  rfl

/-- Witness for C9 amended at the concrete failing environment. -/
theorem c9_resolution_failure_falls_through_witness :
    processCandidate c9Oracle false ["bluesky"] [] [] c9Cand =
      ((fetchStage c9Oracle false ["bluesky"] c9Cand.url).1,
        Event.resolveUrl c9Cand.url ::
          (fetchStage c9Oracle false ["bluesky"] c9Cand.url).2) :=
  c9_resolution_failure_falls_through c9Oracle false ["bluesky"] [] []
    c9Cand rfl (by decide) rfl

/-! ## C8 — URL safety validation -/

/-- The hostname `validate_url` extracts from a URL (netloc truncated at
the first `':'`). -/
def urlHostname (url : String) : String :=
  String.mk (beforeChar ':' (urlNetloc url.data))

/-- C8: `validate_url` applies its checks in order, short-circuiting on
the first failure; it rejects empty input, over-long input, non-http(s)
schemes, missing hosts, and hosts that are — or resolve to — private,
loopback, link-local, reserved or metadata addresses (including
`localhost` and `127.0.0.1`); it accepts `https://example.com/article`
whenever that host does not resolve to such an address; and a DNS
resolution failure is treated as allow. -/
theorem c8_validate_url (resolver : Resolver) :
    validate_url "" resolver =
      (false, some "URL is empty or not a string") ∧
    (∀ u : String, MAX_URL_LENGTH < u.length →
      validate_url u resolver =
        (false, some "URL exceeds maximum length of 2048 characters")) ∧
    validate_url "javascript:alert(1)" resolver =
      (false, some "URL scheme is not allowed (only http/https)") ∧
    validate_url "http://" resolver = (false, some "URL has no domain") ∧
    validate_url "http://169.254.169.254/" resolver =
      (false, some
        "URL points to private/internal address: 169.254.169.254") ∧
    validate_url "http://localhost/" resolver =
      (false, some "URL points to private/internal address: localhost") ∧
    validate_url "http://127.0.0.1/" resolver =
      (false, some "URL points to private/internal address: 127.0.0.1") ∧
    ((∀ ips, resolver "example.com" = some ips →
        ips.all (fun ip => !badIp ip) = true) →
      validate_url "https://example.com/article" resolver = (true, none)) ∧
    (∀ h : String, localhost_patterns.contains (pyLower h) = false →
      parseIPv4 (pyStrip ['[', ']'] h.data) = none →
      resolver h = none → is_private_ip h resolver = false) ∧
    (∀ (h : String) (ips : List IpAddr) (ip : IpAddr),
      parseIPv4 (pyStrip ['[', ']'] h.data) = none →
      resolver h = some ips → ip ∈ ips → badIp ip = true →
      is_private_ip h resolver = true) ∧
    (∀ u : String, (validate_url u resolver).1 = true →
      is_private_ip (urlHostname u) resolver = false) := by
  refine ⟨rfl, ?_, rfl, rfl, rfl, rfl, rfl, ?_, ?_, ?_, ?_⟩
  · intro u hu
    have h0 : ¬ (u = "") := by
      intro h; subst h; revert hu; decide
    unfold validate_url
    rw [if_neg h0, if_pos hu]
  · intro hres
    have hpar : parseIPv4 (pyStrip ['[', ']'] "example.com".data) = none := by
      decide
    have hpriv : is_private_ip "example.com" resolver = false := by
      unfold is_private_ip
      rw [if_neg (by decide)]
      simp only [hpar]
      cases hr : resolver "example.com" with
      | none => simp only [hr]
      | some ips =>
        have hall := hres ips hr
        simp only [List.all_eq_true, Bool.not_eq_true'] at hall
        simp only [hr, List.any_eq_false]
        intro x hx
        exact (hall x hx) ▸ Bool.false_ne_true
    have hred : validate_url "https://example.com/article" resolver =
        if is_private_ip "example.com" resolver = true then
          (false, some ("URL points to private/internal address: " ++
            "example.com"))
        else (true, none) := rfl
    rw [hred, if_neg (by rw [hpriv]; exact Bool.false_ne_true)]
  · intro h hpat hip hdns
    unfold is_private_ip
    rw [if_neg (by rw [hpat]; exact Bool.false_ne_true)]
    simp only [hip, hdns]
  · intro h ips ip hip hdns hmem hbad
    unfold is_private_ip
    by_cases hpat : localhost_patterns.contains (pyLower h) = true
    · rw [if_pos hpat]
    · rw [if_neg hpat]
      simp only [hip, hdns]
      exact List.any_eq_true.mpr ⟨ip, hmem, hbad⟩
  · intro u hvalid
    simp only [validate_url] at hvalid
    by_cases h0 : u = ""
    · rw [if_pos h0] at hvalid; simp at hvalid
    · rw [if_neg h0] at hvalid
      by_cases h1 : MAX_URL_LENGTH < u.length
      · rw [if_pos h1] at hvalid; simp at hvalid
      · rw [if_neg h1] at hvalid
        cases hs : urlScheme u.data with
        | none => simp only [hs] at hvalid; simp at hvalid
        | some scheme =>
          simp only [hs] at hvalid
          by_cases h2 : ¬ (scheme = "http".data ∨ scheme = "https".data)
          · rw [if_pos h2] at hvalid; simp at hvalid
          · rw [if_neg h2] at hvalid
            by_cases h3 : urlNetloc u.data = []
            · rw [if_pos h3] at hvalid; simp at hvalid
            · rw [if_neg h3] at hvalid
              by_cases h4 : String.mk (beforeChar ':' (urlNetloc u.data))
                  = ""
              · rw [if_pos h4] at hvalid; simp at hvalid
              · rw [if_neg h4] at hvalid
                by_cases h5 : is_private_ip
                    (String.mk (beforeChar ':' (urlNetloc u.data)))
                    resolver = true
                · rw [if_pos h5] at hvalid; simp at hvalid
                · unfold urlHostname
                  simpa using h5

/-- Witness for C8 with the always-failing resolver. -/
theorem c8_validate_url_witness :
    validate_url "http://169.254.169.254/" (fun _ => none) =
      (false, some
        "URL points to private/internal address: 169.254.169.254") ∧
    validate_url "https://example.com/article" (fun _ => none) =
      (true, none) :=
  ⟨(c8_validate_url (fun _ => none)).2.2.2.2.1,
   (c8_validate_url (fun _ => none)).2.2.2.2.2.2.2.1
     (fun ips h => absurd h (by simp))⟩

end NewsPoster
